import Mathlib

/-
Verification of the recording-validation-interface core against its
natural-language specification.

The development shallowly embeds the relevant parts of the Python sources:

  * src/extraction-scripts/find_sessions.py
    (RecordingExtractor, PhraseExtractor, to_milliseconds, tier-name patterns)
  * src/recval/model.py
    (VersionedString, Recording, compute_fingerprint)

Machine-level conventions of the embedding:

  * Python byte strings are List Nat (each element < 256).
  * Python Decimal tier times are modelled as Rat (exact arithmetic; Decimal
    values are a subset of the rationals).
  * Fallible Python code (assert, IndexError, AttributeError, RuntimeError)
    is modelled with Except String, the string holding the kind of error.
  * hashlib.sha256 is implemented bit-faithfully below over Nat arithmetic
    (32-bit words are Nat values kept below 2 to the 32 by explicit mod).
-/

namespace Recval

/-! ## SHA-256 (model of hashlib.sha256, FIPS 180-4) -/

/-- 2 to the 32: the modulus for 32-bit words. -/
def w32 : Nat := 4294967296

/-- Rotate the 32-bit word x right by n bit positions. -/
def rotr (n x : Nat) : Nat := ((x >>> n) ||| (x <<< (32 - n))) % w32

/-- Bitwise complement of a 32-bit word. -/
def compl32 (x : Nat) : Nat := x ^^^ (w32 - 1)

def ch32 (x y z : Nat) : Nat := (x &&& y) ^^^ (compl32 x &&& z)

def maj32 (x y z : Nat) : Nat := (x &&& y) ^^^ (x &&& z) ^^^ (y &&& z)

def ssig0 (x : Nat) : Nat := rotr 7 x ^^^ rotr 18 x ^^^ (x >>> 3)

def ssig1 (x : Nat) : Nat := rotr 17 x ^^^ rotr 19 x ^^^ (x >>> 10)

def bsig0 (x : Nat) : Nat := rotr 2 x ^^^ rotr 13 x ^^^ rotr 22 x

def bsig1 (x : Nat) : Nat := rotr 6 x ^^^ rotr 11 x ^^^ rotr 25 x

/-- The sixty-four round constants of the hash, in decimal. -/
def K256 : List Nat :=
  [1116352408, 1899447441, 3049323471, 3921009573, 961987163,
   1508970993, 2453635748, 2870763221, 3624381080, 310598401,
   607225278, 1426881987, 1925078388, 2162078206, 2614888103,
   3248222580, 3835390401, 4022224774, 264347078, 604807628,
   770255983, 1249150122, 1555081692, 1996064986, 2554220882,
   2821834349, 2952996808, 3210313671, 3336571891, 3584528711,
   113926993, 338241895, 666307205, 773529912, 1294757372,
   1396182291, 1695183700, 1986661051, 2177026350, 2456956037,
   2730485921, 2820302411, 3259730800, 3345764771, 3516065817,
   3600352804, 4094571909, 275423344, 430227734, 506948616,
   659060556, 883997877, 958139571, 1322822218, 1537002063,
   1747873779, 1955562222, 2024104815, 2227730452, 2361852424,
   2428436474, 2756734187, 3204031479, 3329325298]

/-- The eight words of the initial hash state, in decimal. -/
def H256 : List Nat :=
  [1779033703, 3144134277, 1013904242, 2773480762,
   1359893119, 2600822924, 528734635, 1541459225]

/-- Group a block of 64 bytes into sixteen 32-bit big-endian words. -/
def toWords : List Nat → List Nat
  | b0 :: b1 :: b2 :: b3 :: rest =>
      (((b0 * 256 + b1) * 256 + b2) * 256 + b3) :: toWords rest
  | _ => []

/-- Extend sixteen message-schedule words to sixty-four. -/
def schedule (ws : List Nat) : List Nat :=
  (List.range 48).foldl
    (fun a i =>
      a ++ [(ssig1 (a.getD (i + 14) 0) + a.getD (i + 9) 0 +
             ssig0 (a.getD (i + 1) 0) + a.getD i 0) % w32])
    ws

/-- The eight working variables of the compression function. -/
structure Hash8 where
  a : Nat
  b : Nat
  c : Nat
  d : Nat
  e : Nat
  f : Nat
  g : Nat
  h : Nat

/-- One round of the SHA-256 compression function; the pair holds the round
constant and the schedule word. -/
def shaRound (st : Hash8) (kw : Nat × Nat) : Hash8 :=
  let t1 := (st.h + bsig1 st.e + ch32 st.e st.f st.g + kw.1 + kw.2) % w32
  let t2 := (bsig0 st.a + maj32 st.a st.b st.c) % w32
  ⟨(t1 + t2) % w32, st.a, st.b, st.c, (st.d + t1) % w32, st.e, st.f, st.g⟩

/-- Compress one 64-byte block into the running hash (a list of 8 words). -/
def compress (hs : List Nat) (block : List Nat) : List Nat :=
  let ws := schedule (toWords block)
  let init : Hash8 :=
    ⟨hs.getD 0 0, hs.getD 1 0, hs.getD 2 0, hs.getD 3 0,
     hs.getD 4 0, hs.getD 5 0, hs.getD 6 0, hs.getD 7 0⟩
  let st := (K256.zip ws).foldl shaRound init
  [(init.a + st.a) % w32, (init.b + st.b) % w32, (init.c + st.c) % w32,
   (init.d + st.d) % w32, (init.e + st.e) % w32, (init.f + st.f) % w32,
   (init.g + st.g) % w32, (init.h + st.h) % w32]

/-- Big-endian byte representation of n on k bytes. -/
def beBytes (k n : Nat) : List Nat :=
  (List.range k).map (fun i => (n >>> (8 * (k - 1 - i))) % 256)

/-- SHA-256 padding: append 0x80, zeros to 56 mod 64, then the 8-byte
big-endian bit length. -/
def padMessage (msg : List Nat) : List Nat :=
  let padZeros := (119 - msg.length % 64) % 64
  msg ++ [0x80] ++ List.replicate padZeros 0 ++ beBytes 8 (8 * msg.length)

/-- Split a byte list into 64-byte chunks. -/
def chunks64 : List Nat → List (List Nat)
  | [] => []
  | b :: rest => ((b :: rest).take 64) :: chunks64 ((b :: rest).drop 64)
termination_by l => l.length
decreasing_by
  simp only [List.length_drop, List.length_cons]
  omega

/-- SHA-256 of a byte sequence, as eight 32-bit words. -/
def sha256Words (msg : List Nat) : List Nat :=
  (chunks64 (padMessage msg)).foldl compress H256

/-- The sixteen lowercase hexadecimal digits. -/
def hexChars : List Char := "0123456789abcdef".data

def hexDigit (n : Nat) : Char := hexChars.getD n '0'

/-- Eight hex characters of one 32-bit word, most significant first. -/
def wordHex (x : Nat) : List Char :=
  (List.range 8).map (fun i => hexDigit ((x >>> (4 * (7 - i))) % 16))

/-- hashlib hexdigest: the hash words rendered as 64 lowercase hex chars. -/
def sha256hex (msg : List Nat) : String :=
  String.mk ((sha256Words msg).flatMap wordHex)

/-- UTF-8 encoding of one character, as in str.encode in Python. -/
def utf8Char (c : Char) : List Nat :=
  let n := c.toNat
  if n < 0x80 then [n]
  else if n < 0x800 then
    [0xC0 ||| (n >>> 6), 0x80 ||| (n &&& 0x3F)]
  else if n < 0x10000 then
    [0xE0 ||| (n >>> 12), 0x80 ||| ((n >>> 6) &&& 0x3F), 0x80 ||| (n &&& 0x3F)]
  else
    [0xF0 ||| (n >>> 18), 0x80 ||| ((n >>> 12) &&& 0x3F),
     0x80 ||| ((n >>> 6) &&& 0x3F), 0x80 ||| (n &&& 0x3F)]

/-- UTF-8 encoding of a string. -/
def utf8 (s : String) : List Nat := s.data.flatMap utf8Char

/-- sha256 of the UTF-8 encoding of a string, hex encoded: the composition
the sources use as sha256(text.encode(UTF-8)).hexdigest(). -/
def sha256hexOfString (s : String) : String := sha256hex (utf8 s)

/-! ## Normalization (recval.normalization)

Modelled from the spec: the module recval/normalization.py is not among the
provided sources; the spec describes it as "a canonicalization function
(Unicode normalization to a single canonical form)".  Unicode NFC is the
identity on the canonical-form (in particular all ASCII) strings appearing
in this development, so the function is modelled as the identity. -/
def normalize (s : String) : String := s

/-! ## Extraction (src/extraction-scripts/find_sessions.py) -/

/-- One labelled interval of a TextGrid tier: (minTime, maxTime, mark).
Times are the Decimal seconds of the source, modelled exactly as rationals. -/
structure Interval where
  minTime : Rat
  maxTime : Rat
  mark : String
deriving DecidableEq, Repr

/-- One named tier: an ordered sequence of intervals. -/
structure IntervalTier where
  name : String
  intervals : List Interval
deriving DecidableEq, Repr

/-- Modelled from the spec: IntervalTier.intervalContaining comes from the
external textgrid library, which the spec treats as a collaborator and
specifies in section 4.1 as "returns the interval whose [start,end) bounds
include timestamp, or none if the timestamp falls in a gap"; on the ordered
non-overlapping tiers of the data model this is the first such interval. -/
def intervalContaining (tier : IntervalTier) (t : Rat) : Option Interval :=
  tier.intervals.find? (fun iv => decide (iv.minTime ≤ t) && decide (t < iv.maxTime))

/-- to_milliseconds (find_sessions.py line 226): int(seconds * 1000).
Python int() on an exact Decimal truncates toward zero, which is the floor
for nonnegative arguments and the ceiling for negative ones. -/
def to_milliseconds (seconds : Rat) : Int :=
  if 0 ≤ seconds * 1000 then ⌊seconds * 1000⌋ else ⌈seconds * 1000⌉

/-- A word character of the regex metacharacter backslash-w (ASCII). -/
def isWordChar (c : Char) : Bool := c.isAlphanum || c == '_'

/-- needle occurs in hay at position i with regex word boundaries on both
sides: the neighbouring characters, when they exist, are non-word. -/
def occursAsWordAt (hay needle : List Char) (i : Nat) : Bool :=
  decide ((hay.drop i).take needle.length = needle) &&
  (match i with
   | 0 => true
   | j + 1 => !isWordChar (hay.getD j ' ')) &&
  !isWordChar (hay.getD (i + needle.length) ' ')

/-- Case-insensitive whole-word containment: the model of
re.search with a pattern of backslash-b alternatives backslash-b and
re.IGNORECASE, applied to the ASCII tier names. -/
def containsWord (hay needle : String) : Bool :=
  (List.range (hay.length + 1)).any
    (fun i => occursAsWordAt (hay.data.map Char.toLower) needle.data i)

/-- cree_pattern.search (find_sessions.py line 215): whole word cree or crk,
case-insensitive. -/
def cree_pattern_search (name : String) : Bool :=
  containsWord name "cree" || containsWord name "crk"

/-- english_pattern.search (find_sessions.py line 216): whole word english,
eng or en, case-insensitive. -/
def english_pattern_search (name : String) : Bool :=
  containsWord name "english" || containsWord name "eng" || containsWord name "en"

def is_english_tier (tier : IntervalTier) : Bool := english_pattern_search tier.name

def is_cree_tier (tier : IntervalTier) : Bool := cree_pattern_search tier.name

/-- Fixed tier indexes (find_sessions.py lines 106-109). -/
def WORD_TIER_ENGLISH : Nat := 0
def WORD_TIER_CREE : Nat := 1
def SENTENCE_TIER_ENGLISH : Nat := 2
def SENTENCE_TIER_CREE : Nat := 3

/-- The record assembled per emitted snippet: the locals of the loop bodies
of extract_phrases and of the sentence loop of extract_all at the point of
the export and of the TODO yield.  The audio slicing, loudness
normalization and wav export are external pydub I/O and are not modelled. -/
structure PhraseCandidate where
  _type : String
  transcription : String
  translation : String
  start : Int
  end' : Int
deriving DecidableEq, Repr

/-- PhraseExtractor state: session, tier list of the TextGrid, speaker.
The AudioSegment is external I/O and is not modelled. -/
structure PhraseExtractor where
  session : String
  text_grid : List IntervalTier
  speaker : String

def tooFewTiersMsg : String := "AssertionError: TextGrid has too few tiers"
def creeTierAssertMsg : String := "AssertionError: is_cree_tier"
def englishTierAssertMsg : String := "AssertionError: is_english_tier"
def indexErrorMsg : String := "IndexError: list index out of range"
def attributeErrorMsg : String := "AttributeError: NoneType object has no attribute mark"

/-- Python list indexing tiers[i], which raises IndexError out of range. -/
def getTier (tiers : List IntervalTier) (i : Nat) : Except String IntervalTier :=
  match tiers.get? i with
  | some t => .ok t
  | none => .error indexErrorMsg

/-- timestamp_within_sentence (find_sessions.py lines 169-175): looks up the
tier at fixed index SENTENCE_TIER_CREE = 3 (raising IndexError when absent)
and returns the truthiness of sentence and sentence.mark != '' . -/
def timestamp_within_sentence (pe : PhraseExtractor) (timestamp : Rat) :
    Except String Bool :=
  match getTier pe.text_grid SENTENCE_TIER_CREE with
  | .error e => .error e
  | .ok sentences =>
    match intervalContaining sentences timestamp with
    | none => .ok false
    | some sentence => .ok (sentence.mark != "")

/-- Whitespace for str.strip: space and the ASCII control whitespace
range, code points 9 to 13 (tab, newline, vertical tab, form feed,
carriage return). -/
def isPySpace (c : Char) : Bool :=
  c.toNat == 32 || (9 ≤ c.toNat && c.toNat ≤ 13)

/-- Python str.strip(): leading and trailing whitespace removed. -/
def pyStrip (s : String) : String :=
  String.mk (((s.data.dropWhile isPySpace).reverse.dropWhile isPySpace).reverse)

/-- The blank-interval test of both loops:
if not interval.mark or interval.mark.strip() == '' . -/
def isBlankMark (m : String) : Bool := m == "" || pyStrip m == ""

/-- The body of the extraction loops for one interval (find_sessions.py
lines 182-211 for words, 139-163 for sentences; the two loop bodies are
identical except that only the word pass runs the within-sentence test,
which in extract_phrases is the short-circuit
_type == 'word' and self.timestamp_within_sentence(midtime)).
Returns ok none when the interval is skipped, ok (some c) when a candidate
is emitted, and error for an uncaught Python exception. -/
def interval_emission (pe : PhraseExtractor) (_type : String)
    (english_tier : IntervalTier) (interval : Interval) :
    Except String (Option PhraseCandidate) :=
  if isBlankMark interval.mark then
    -- This interval is empty, for some reason.
    .ok none
  else
    let transcription := normalize interval.mark
    let start := to_milliseconds interval.minTime
    let end' := to_milliseconds interval.maxTime
    let midtime := (interval.minTime + interval.maxTime) / 2
    match (if _type == "word" then timestamp_within_sentence pe midtime
           else .ok false) with
    | .error e => .error e
    | .ok true =>
      -- It is an example sentence; leave it for the next loop.
      .ok none
    | .ok false =>
      match intervalContaining english_tier midtime with
      | none =>
        -- english_interval is None and english_interval.mark raises.
        .error attributeErrorMsg
      | some english_interval =>
        .ok (some { _type := _type,
                    transcription := transcription,
                    translation := normalize english_interval.mark,
                    start := start, end' := end' })

/-- The extraction loop over the intervals of a Cree tier, collecting the
emitted candidates in order and propagating the first uncaught exception. -/
def extraction_loop (pe : PhraseExtractor) (_type : String)
    (english_tier : IntervalTier) : List Interval →
    Except String (List PhraseCandidate)
  | [] => .ok []
  | iv :: rest =>
    match interval_emission pe _type english_tier iv with
    | .error e => .error e
    | .ok none => extraction_loop pe _type english_tier rest
    | .ok (some c) =>
      match extraction_loop pe _type english_tier rest with
      | .error e => .error e
      | .ok cs => .ok (c :: cs)

/-- extract_phrases (find_sessions.py lines 177-213): asserts the tier name
patterns, then runs the loop. -/
def extract_phrases (pe : PhraseExtractor) (_type : String)
    (cree_tier english_tier : IntervalTier) :
    Except String (List PhraseCandidate) :=
  if !is_cree_tier cree_tier then .error creeTierAssertMsg
  else if !is_english_tier english_tier then .error englishTierAssertMsg
  else extraction_loop pe _type english_tier cree_tier.intervals

/-- extract_words (find_sessions.py lines 166-167). -/
def extract_words (pe : PhraseExtractor) (cree_tier english_tier : IntervalTier) :
    Except String (List PhraseCandidate) :=
  extract_phrases pe "word" cree_tier english_tier

/-- extract_all (find_sessions.py lines 126-164): asserts at least two
tiers; runs the word pass on tiers[WORD_TIER_CREE] against
tiers[WORD_TIER_ENGLISH]; then asserts the English word tier name and the
Cree sentence tier name and runs the inline sentence loop on
tiers[SENTENCE_TIER_CREE], looking translations up in the English WORD
tier.  Returns the word candidates and the sentence candidates. -/
def extract_all (pe : PhraseExtractor) :
    Except String (List PhraseCandidate × List PhraseCandidate) :=
  if pe.text_grid.length < 2 then .error tooFewTiersMsg
  else
    match getTier pe.text_grid WORD_TIER_CREE with
    | .error e => .error e
    | .ok cree_word_tier =>
      match getTier pe.text_grid WORD_TIER_ENGLISH with
      | .error e => .error e
      | .ok english_word_tier =>
        match extract_phrases pe "word" cree_word_tier english_word_tier with
        | .error e => .error e
        | .ok words =>
          -- assert is_english_tier(english_word_intervals)
          if !is_english_tier english_word_tier then .error englishTierAssertMsg
          else
            match getTier pe.text_grid SENTENCE_TIER_CREE with
            | .error e => .error e
            | .ok cree_sentence_intervals =>
              -- assert cree_pattern.search(cree_sentence_intervals.name)
              if !is_cree_tier cree_sentence_intervals then .error creeTierAssertMsg
              else
                match extraction_loop pe "sentence" english_word_tier
                        cree_sentence_intervals.intervals with
                | .error e => .error e
                | .ok sentences => .ok (words, sentences)

/-! ## Session scanning (find_sessions.py, RecordingExtractor) -/

/-- RecordingExtractor state: the dict self.sessions mapping a parsed
RecordingSession identity to the directory it was found at, plus (for
specification purposes) the directories whose TextGrid/wav content has been
extracted.  RecordingSession.from_name is outside the provided sources; a
Session identity is therefore the opaque parsed value, modelled as a
string. -/
structure RecordingExtractor where
  sessions : List (String × String)
  processed : List String
deriving DecidableEq, Repr

/-- extract_session (find_sessions.py lines 73-103) given the parsed
session identity of the directory name: raises RuntimeError when the
session is already a key of self.sessions, otherwise scans the directory
for TextGrid/wav pairs and extracts them (summarized here as appending the
directory to processed).  NOTE, faithful to the source: no branch ever
inserts into self.sessions. -/
def extract_session (ex : RecordingExtractor) (session : String)
    (session_dir : String) : Except String RecordingExtractor :=
  if (ex.sessions.find? (fun kv => kv.1 == session)).isSome then
    .error "RuntimeError: Duplicate session"
  else
    .ok { ex with processed := ex.processed ++ [session_dir] }

/-! ## VersionedString (src/recval/model.py lines 221-316)

The embedding distinguishes, as SQLAlchemy does, the foreign-key columns
provenance_id / previous_id from the relationship attributes
provenance / previous.  On the transient instances built by new and
derive the relationship attributes are never assigned (assigning the _id
column of a transient instance does not populate the relationship), so they
are carried as Option String (the str rendering of the related object when
loaded) and stay none throughout.  The timestamp is carried as the string
the format %Y-%m-%dT%H:%M:%S%z renders it to, supplied explicitly by the
caller (the source reads datetime.utcnow, an external clock). -/

structure VersionedString where
  id : String
  value : String
  provenance_id : String
  previous_id : Option String
  provenance : Option String
  previous : Option String
  author_name : String
  timestamp : String
deriving DecidableEq, Repr

/-- is_root (model.py lines 260-262). -/
def VersionedString.is_root (v : VersionedString) : Bool := v.id == v.provenance_id

/-- show (model.py lines 264-282), the git-object-like serialization that
is hashed.  The first guard of the source is
if self.provenance and self.provenance != self.id : self.provenance is the
relationship object and self.id a string, so the inequality is always true
when the relationship is loaded and the guard is just the truthiness of
self.provenance; both f-strings interpolate the related OBJECTS, rendered
here by the carried strings. -/
def VersionedString.show_ (v : VersionedString) : String :=
  String.intercalate "\n"
    ((match v.provenance with
      | some p => ["provenance " ++ p]
      | none => []) ++
     (match v.previous with
      | some p => ["previous " ++ p]
      | none => []) ++
     ["author " ++ v.author_name, "date " ++ v.timestamp, "", v.value])

/-- compute_sha256hash (model.py lines 284-288):
sha256(self.show().encode(UTF-8)).hexdigest(). -/
def VersionedString.compute_sha256hash (v : VersionedString) : String :=
  sha256hexOfString v.show_

/-- The validates hook on value (model.py lines 254-258): normalizes and
asserts the normalized value is nonempty. -/
def validate_value (utterance : String) : Except String String :=
  if (normalize utterance).length > 0 then .ok (normalize utterance)
  else .error "AssertionError: len(value) > 0"

/-- new (model.py lines 303-316): builds a root versioned string.  The
constructor runs the validates hook on value; id is then computed from the
serialization, and provenance_id is set to id. -/
def VersionedString.new (value author_name timestamp : String) :
    Except String VersionedString :=
  match validate_value value with
  | .error e => .error e
  | .ok v =>
    let instance0 : VersionedString :=
      { id := "", value := v, provenance_id := "", previous_id := none,
        provenance := none, previous := none,
        author_name := author_name, timestamp := timestamp }
    let withId := { instance0 with id := instance0.compute_sha256hash }
    .ok { withId with provenance_id := withId.id }

/-- derive (model.py lines 290-301): builds a new node via new, then sets
previous_id to the receiver id and provenance_id to the receiver
provenance_id (the _id columns, not the relationships), and recomputes id
from the serialization. -/
def VersionedString.derive (self : VersionedString)
    (value author_name timestamp : String) : Except String VersionedString :=
  match VersionedString.new value author_name timestamp with
  | .error e => .error e
  | .ok instance0 =>
    let instance1 := { instance0 with previous_id := some self.id,
                                      provenance_id := self.provenance_id }
    -- Setting previous and provenance changed the hash, so recompute it.
    .ok { instance1 with id := instance1.compute_sha256hash }

/-- translation_history / transcription_history (model.py lines 130-140):
VersionedString.query.filter_by(provenance_id=...).all() over the
versioned_string table, modelled as the table rows in insertion order. -/
def history (table : List VersionedString) (provenance_id : String) :
    List VersionedString :=
  table.filter (fun n => n.provenance_id == provenance_id)

/-! ## Recording and fingerprints (src/recval/model.py lines 184-218, 331-365) -/

/-- Split a character list on a separator character. -/
def splitOnChar : List Char → Char → List (List Char)
  | [], _ => [[]]
  | c :: rest, sep =>
    let r := splitOnChar rest sep
    if c == sep then [] :: r
    else (c :: r.headD []) :: r.tail

/-- pathlib PurePath.name: the final path component. -/
def pathName (p : String) : String :=
  String.mk ((splitOnChar p.data '/').getLastD [])

/-- pathlib PurePath.suffix: the extension of the final component, the
substring from its last dot when that dot is neither leading nor trailing,
else the empty string. -/
def pathSuffix (p : String) : String :=
  let cs := (pathName p).data
  match (List.range cs.length).reverse.find? (fun i => cs.getD i ' ' == '.') with
  | some i => if 0 < i && i + 1 < cs.length then String.mk (cs.drop i) else ""
  | none => ""

/-- compute_fingerprint (model.py lines 331-337): asserts the path has
suffix .wav, then returns the SHA-256 hexdigest of the raw bytes the file
holds.  contents stands for the bytes open(file_path, rb).read() returns
for this path. -/
def compute_fingerprint (file_path : String) (contents : List Nat) :
    Except String String :=
  if pathSuffix file_path != ".wav" then
    .error "AssertionError: Expected .wav file"
  else
    .ok (sha256hex contents)

/-- A Recording row (model.py lines 184-200): content-addressed by
fingerprint; the phrase is referenced abstractly by its id. -/
structure Recording where
  fingerprint : String
  phrase_id : Nat
  speaker : Option String
deriving DecidableEq, Repr

/-- Result of Recording.new, recording also which side steps ran:
whether compute_fingerprint was invoked and whether transcode_to_aac was
invoked (transcoding itself is an external ffmpeg invocation). -/
structure RecordingNewResult where
  recording : Recording
  computed_fingerprint : Bool
  transcoded : Bool
deriving DecidableEq, Repr

/-- The file system visible to Recording.new: path to raw byte contents.
input_file.exists() is the success of the lookup. -/
def readFile (fs : List (String × List Nat)) (p : String) : Option (List Nat) :=
  (fs.find? (fun kv => kv.1 == p)).map (fun kv => kv.2)

/-- Recording.new (model.py lines 202-214): asserts the input file exists;
when the fingerprint argument is None, computes it from the file bytes and
transcodes; otherwise uses the supplied fingerprint as given, computing and
transcoding nothing. -/
def Recording.new (fs : List (String × List Nat)) (phrase_id : Nat)
    (input_file : String) (speaker : Option String)
    (fingerprint : Option String) : Except String RecordingNewResult :=
  match readFile fs input_file with
  | none => .error "AssertionError: input_file.exists()"
  | some contents =>
    match fingerprint with
    | some fp =>
      .ok { recording := { fingerprint := fp, phrase_id := phrase_id,
                           speaker := speaker },
            computed_fingerprint := false, transcoded := false }
    | none =>
      match compute_fingerprint input_file contents with
      | .error e => .error e
      | .ok fp =>
        .ok { recording := { fingerprint := fp, phrase_id := phrase_id,
                             speaker := speaker },
              computed_fingerprint := true, transcoded := true }

/-! ## Helper lemmas -/

theorem compress_length (hs b : List Nat) : (compress hs b).length = 8 := rfl

theorem foldl_compress_length (bs : List (List Nat)) (init : List Nat)
    (h : init.length = 8) : (bs.foldl compress init).length = 8 := by
  induction bs generalizing init with
  | nil => exact h
  | cons b bs ih => exact ih (compress init b) (compress_length init b)

theorem sha256Words_length (m : List Nat) : (sha256Words m).length = 8 :=
  foldl_compress_length _ _ rfl

theorem wordHex_length (x : Nat) : (wordHex x).length = 8 := by
  simp [wordHex]

theorem flatMap_wordHex_length (l : List Nat) :
    (l.flatMap wordHex).length = 8 * l.length := by
  induction l with
  | nil => simp
  | cons x xs ih =>
    simp only [List.flatMap_cons, List.length_append, wordHex_length, ih,
      List.length_cons]
    ring

theorem sha256hex_length (m : List Nat) : (sha256hex m).length = 64 := by
  show ((sha256Words m).flatMap wordHex).length = 64
  rw [flatMap_wordHex_length, sha256Words_length]

theorem hexDigit_mem (n : Nat) : hexDigit n ∈ hexChars := by
  unfold hexDigit
  rcases Nat.lt_or_ge n 16 with h | h
  · interval_cases n <;> decide
  · rw [List.getD_eq_default]
    · decide
    · exact h

theorem sha256hex_hex (m : List Nat) :
    ∀ c ∈ (sha256hex m).data, c ∈ hexChars := by
  intro c hc
  simp only [sha256hex, List.mem_flatMap, wordHex, List.mem_map] at hc
  obtain ⟨x, _, i, _, rfl⟩ := hc
  exact hexDigit_mem _

/-! ## Claim C1 -/

/-- Claim C1 (code bug): scanning a second directory whose name parses to
the Session identity already seen does NOT raise: extract_session checks
membership in self.sessions, but no branch of the source ever inserts into
self.sessions, so the dict stays empty, the duplicate check never fires,
and both directories are processed.  This run evaluates extract_session on
two directories carrying the same parsed session identity. -/
theorem c1_code_bug_eval :
    extract_session ⟨[], []⟩ "2015-05-05am" "sessions/2015-05-05am" =
      .ok ⟨[], ["sessions/2015-05-05am"]⟩ ∧
    extract_session ⟨[], ["sessions/2015-05-05am"]⟩ "2015-05-05am"
        "other/2015-05-05am" =
      .ok ⟨[], ["sessions/2015-05-05am", "other/2015-05-05am"]⟩ :=
  ⟨rfl, rfl⟩

theorem getTier_of_get? {tiers : List IntervalTier} {i : Nat} {t : IntervalTier}
    (h : tiers.get? i = some t) : getTier tiers i = .ok t := by
  unfold getTier; rw [h]

theorem getTier_none {tiers : List IntervalTier} {i : Nat}
    (h : tiers.get? i = none) : getTier tiers i = .error indexErrorMsg := by
  unfold getTier; rw [h]

theorem getTier_ok_inv {tiers : List IntervalTier} {i : Nat} {t : IntervalTier}
    (h : getTier tiers i = .ok t) : tiers.get? i = some t := by
  unfold getTier at h
  cases hg : tiers.get? i with
  | none => rw [hg] at h; cases h
  | some u => rw [hg] at h; cases h; rfl

/-- Every member of a successfully extracted interval list has a
successful emission, and every candidate it emits is in the output. -/
theorem extraction_loop_ok_mem {pe : PhraseExtractor} {ty : String}
    {et : IntervalTier} {ivs : List Interval} {out : List PhraseCandidate}
    (h : extraction_loop pe ty et ivs = .ok out) {iv : Interval}
    (hm : iv ∈ ivs) :
    ∃ r, interval_emission pe ty et iv = .ok r ∧
      ∀ c, r = some c → c ∈ out := by
  induction ivs generalizing out with
  | nil => cases hm
  | cons a rest ih =>
    rw [extraction_loop] at h
    cases he : interval_emission pe ty et a with
    | error e => rw [he] at h; cases h
    | ok r0 =>
      rw [he] at h
      cases r0 with
      | none =>
        rcases List.mem_cons.mp hm with rfl | hm2
        · exact ⟨none, he, by intro c hc; cases hc⟩
        · exact ih h hm2
      | some c0 =>
        cases hrest : extraction_loop pe ty et rest with
        | error e => rw [hrest] at h; cases h
        | ok cs =>
          rw [hrest] at h
          cases h
          rcases List.mem_cons.mp hm with rfl | hm2
          · exact ⟨some c0, he, by rintro c hc; cases hc; exact List.mem_cons_self _ _⟩
          · obtain ⟨r, hr, hin⟩ := ih hrest hm2
            exact ⟨r, hr, fun c hc => List.mem_cons_of_mem _ (hin c hc)⟩

/-- An interval whose emission is ok none contributes nothing: the loop
output over any surrounding list is that of the list with it removed. -/
theorem extraction_loop_skip {pe : PhraseExtractor} {ty : String}
    {et : IntervalTier} {w : Interval}
    (hw : interval_emission pe ty et w = .ok none) (l1 l2 : List Interval) :
    extraction_loop pe ty et (l1 ++ w :: l2) =
      extraction_loop pe ty et (l1 ++ l2) := by
  induction l1 with
  | nil =>
    simp only [List.nil_append]
    rw [extraction_loop, hw]
  | cons a l1 ih =>
    simp only [List.cons_append]
    rw [extraction_loop, extraction_loop]
    cases he : interval_emission pe ty et a with
    | error e => rfl
    | ok r =>
      cases r with
      | none => exact ih
      | some c => rw [ih]

theorem extract_phrases_ok_inv {pe : PhraseExtractor} {ty : String}
    {ct et : IntervalTier} {out : List PhraseCandidate}
    (h : extract_phrases pe ty ct et = .ok out) :
    is_cree_tier ct = true ∧ is_english_tier et = true ∧
    extraction_loop pe ty et ct.intervals = .ok out := by
  unfold extract_phrases at h
  split at h
  · cases h
  next h1 =>
    split at h
    · cases h
    next h2 =>
      exact ⟨by simpa using h1, by simpa using h2, h⟩

/-- Inversion of a successful extract_all run. -/
theorem extract_all_ok_inv {pe : PhraseExtractor}
    {ws ss : List PhraseCandidate} (h : extract_all pe = .ok (ws, ss)) :
    2 ≤ pe.text_grid.length ∧
    ∃ ct et st,
      pe.text_grid.get? WORD_TIER_CREE = some ct ∧
      pe.text_grid.get? WORD_TIER_ENGLISH = some et ∧
      pe.text_grid.get? SENTENCE_TIER_CREE = some st ∧
      is_cree_tier ct = true ∧ is_english_tier et = true ∧
      is_cree_tier st = true ∧
      extraction_loop pe "word" et ct.intervals = .ok ws ∧
      extraction_loop pe "sentence" et st.intervals = .ok ss := by
  unfold extract_all at h
  split at h
  · cases h
  next hlen =>
    cases hct : getTier pe.text_grid WORD_TIER_CREE with
    | error e => rw [hct] at h; cases h
    | ok ct =>
      rw [hct] at h
      dsimp only at h
      cases het : getTier pe.text_grid WORD_TIER_ENGLISH with
      | error e => rw [het] at h; cases h
      | ok et =>
        rw [het] at h
        dsimp only at h
        cases hw : extract_phrases pe "word" ct et with
        | error e => rw [hw] at h; cases h
        | ok words0 =>
          rw [hw] at h
          dsimp only at h
          split at h
          · cases h
          next heng =>
            cases hst : getTier pe.text_grid SENTENCE_TIER_CREE with
            | error e => rw [hst] at h; cases h
            | ok st =>
              rw [hst] at h
              dsimp only at h
              split at h
              · cases h
              next hcr =>
                cases hsl : extraction_loop pe "sentence" et st.intervals with
                | error e => rw [hsl] at h; cases h
                | ok sents =>
                  rw [hsl] at h
                  dsimp only at h
                  cases h
                  obtain ⟨hcw, hew, hloop⟩ := extract_phrases_ok_inv hw
                  exact ⟨by omega, ct, et, st, getTier_ok_inv hct,
                    getTier_ok_inv het, getTier_ok_inv hst, hcw, hew,
                    by simpa using hcr, hloop, hsl⟩

/-- Non-overlapping intervals, as the Tier data model guarantees. -/
def disjointIntervals (l : List Interval) : Prop :=
  l.Pairwise (fun a b => a.maxTime ≤ b.minTime ∨ b.maxTime ≤ a.minTime)

/-- On a non-overlapping tier, the first containing interval found is THE
member interval containing the timestamp. -/
theorem find_containing {l : List Interval} {S : Interval} {t : Rat}
    (hd : l.Pairwise (fun a b => a.maxTime ≤ b.minTime ∨ b.maxTime ≤ a.minTime))
    (hm : S ∈ l) (h1 : S.minTime ≤ t) (h2 : t < S.maxTime) :
    l.find? (fun iv => decide (iv.minTime ≤ t) && decide (t < iv.maxTime)) =
      some S := by
  induction l with
  | nil => cases hm
  | cons a rest ih =>
    rcases List.mem_cons.mp hm with rfl | hm2
    · rw [List.find?_cons_of_pos]
      simp [h1, h2]
    · have hdis := (List.pairwise_cons.mp hd).1 S hm2
      rw [List.find?_cons_of_neg]
      · exact ih (List.pairwise_cons.mp hd).2 hm2
      · simp only [Bool.and_eq_true, decide_eq_true_eq, not_and]
        intro ha1 ha2
        rcases hdis with hle | hle
        · exact absurd (lt_of_lt_of_le ha2 (le_trans hle h1)) (lt_irrefl t)
        · exact absurd (lt_of_lt_of_le h2 (le_trans hle ha1)) (lt_irrefl t)

theorem intervalContaining_of_mem {tier : IntervalTier} {S : Interval}
    {t : Rat} (hd : disjointIntervals tier.intervals)
    (hm : S ∈ tier.intervals) (h1 : S.minTime ≤ t) (h2 : t < S.maxTime) :
    intervalContaining tier t = some S :=
  find_containing hd hm h1 h2

/-- With no tier at index 3, the word loop either emits nothing (all
intervals blank) or raises IndexError at the first non-blank interval. -/
theorem word_loop_no_tier3 {pe : PhraseExtractor} {et : IntervalTier}
    (h3 : pe.text_grid.get? SENTENCE_TIER_CREE = none)
    (ivs : List Interval) :
    extraction_loop pe "word" et ivs = .ok [] ∨
    extraction_loop pe "word" et ivs = .error indexErrorMsg := by
  induction ivs with
  | nil => left; rfl
  | cons a rest ih =>
    by_cases hb : isBlankMark a.mark
    · have he : interval_emission pe "word" et a = .ok none := by
        unfold interval_emission
        rw [if_pos hb]
      rw [extraction_loop, he]
      exact ih
    · have hts : timestamp_within_sentence pe ((a.minTime + a.maxTime) / 2) =
          .error indexErrorMsg := by
        unfold timestamp_within_sentence
        rw [getTier_none h3]
      have he : interval_emission pe "word" et a = .error indexErrorMsg := by
        unfold interval_emission
        rw [if_neg hb]
        simp [hts]
      right
      rw [extraction_loop, he]

/-- Shape of a word emission when the interval is non-blank and the
within-sentence test answers false: everything now rides on the English
word-tier lookup at the rational midpoint. -/
theorem word_emission_shape (pe : PhraseExtractor) (et : IntervalTier)
    (iv : Interval) (hb : isBlankMark iv.mark = false)
    (hts : timestamp_within_sentence pe ((iv.minTime + iv.maxTime) / 2) =
      .ok false) :
    interval_emission pe "word" et iv =
      (match intervalContaining et ((iv.minTime + iv.maxTime) / 2) with
       | none => .error attributeErrorMsg
       | some e => .ok (some ⟨"word", normalize iv.mark, normalize e.mark,
           to_milliseconds iv.minTime, to_milliseconds iv.maxTime⟩)) := by
  unfold interval_emission
  rw [if_neg (by simp [hb])]
  simp [hts]

/-- A word emission is suppressed when the within-sentence test answers
true. -/
theorem word_emission_suppressed (pe : PhraseExtractor) (et : IntervalTier)
    (iv : Interval)
    (hts : timestamp_within_sentence pe ((iv.minTime + iv.maxTime) / 2) =
      .ok true) :
    interval_emission pe "word" et iv = .ok none := by
  unfold interval_emission
  by_cases hb : isBlankMark iv.mark
  · rw [if_pos hb]
  · rw [if_neg hb]
    simp [hts]

/-- Shape of a sentence emission for a non-blank interval: no
within-sentence test, straight to the English word-tier lookup at the
rational midpoint. -/
theorem sentence_emission_shape (pe : PhraseExtractor) (et : IntervalTier)
    (iv : Interval) (hb : isBlankMark iv.mark = false) :
    interval_emission pe "sentence" et iv =
      (match intervalContaining et ((iv.minTime + iv.maxTime) / 2) with
       | none => .error attributeErrorMsg
       | some e => .ok (some ⟨"sentence", normalize iv.mark, normalize e.mark,
           to_milliseconds iv.minTime, to_milliseconds iv.maxTime⟩)) := by
  unfold interval_emission
  rw [if_neg (by simp [hb])]
  simp

theorem validate_value_ok {v v' : String} (h : validate_value v = .ok v') :
    v' = normalize v := by
  unfold validate_value at h
  split at h
  · cases h; rfl
  · cases h

theorem new_ok_inv {v a t : String} {r : VersionedString}
    (h : VersionedString.new v a t = .ok r) :
    r.provenance_id = r.id ∧ r.previous_id = none ∧ r.provenance = none ∧
    r.previous = none ∧ r.author_name = a ∧ r.timestamp = t ∧
    r.value = normalize v := by
  unfold VersionedString.new at h
  cases hv : validate_value v with
  | error e => rw [hv] at h; cases h
  | ok v' =>
    rw [hv] at h
    simp only [Except.ok.injEq] at h
    subst h
    simpa using validate_value_ok hv

theorem derive_ok_inv {s : VersionedString} {v a t : String}
    {d : VersionedString} (h : s.derive v a t = .ok d) :
    d.previous_id = some s.id ∧ d.provenance_id = s.provenance_id ∧
    d.provenance = none ∧ d.previous = none ∧ d.author_name = a ∧
    d.timestamp = t ∧ d.value = normalize v := by
  unfold VersionedString.derive at h
  cases hv : VersionedString.new v a t with
  | error e => rw [hv] at h; cases h
  | ok i =>
    rw [hv] at h
    simp only [Except.ok.injEq] at h
    subst h
    have hi := new_ok_inv hv
    simpa using ⟨hi.2.2.1, hi.2.2.2.1, hi.2.2.2.2.1, hi.2.2.2.2.2.1,
      hi.2.2.2.2.2.2⟩

/-! ## Claim C2 -/

/-- An extractor input on which the claim fails: the Cree word tier has one
non-blank interval, the English word tier has no interval at its midpoint
(it is empty), and the Cree sentence tier does not contain the midpoint. -/
def c2pe : PhraseExtractor :=
  { session := "sess",
    text_grid := [⟨"English (word)", []⟩,
                  ⟨"Cree (word)", [⟨0, 1, "nipiy"⟩]⟩,
                  ⟨"English (sentence)", []⟩,
                  ⟨"Cree (sentence)", []⟩],
    speaker := "SPK" }

/-- Claim C2 counterexample: with no English word interval containing the
midpoint, extraction RAISES (AttributeError on None.mark) instead of
emitting a candidate with an empty translation; the claim as stated is
false on the code. -/
theorem c2_counterexample : extract_all c2pe = .error attributeErrorMsg := rfl

/-- Claim C2 as amended: for a non-blank Cree interval whose midpoint is
contained in no interval of the English word tier, the emission is the
uncaught AttributeError (english_interval is None and .mark is taken), and
the loop aborts there; the word case assumes the within-sentence test
answered false (otherwise the interval is suppressed before the lookup),
the sentence case has no such test. -/
theorem c2_theorem :
    (∀ (pe : PhraseExtractor) (et : IntervalTier) (iv : Interval),
      isBlankMark iv.mark = false →
      timestamp_within_sentence pe ((iv.minTime + iv.maxTime) / 2) = .ok false →
      intervalContaining et ((iv.minTime + iv.maxTime) / 2) = none →
      interval_emission pe "word" et iv = .error attributeErrorMsg ∧
      ∀ rest, extraction_loop pe "word" et (iv :: rest) =
        .error attributeErrorMsg) ∧
    (∀ (pe : PhraseExtractor) (et : IntervalTier) (iv : Interval),
      isBlankMark iv.mark = false →
      intervalContaining et ((iv.minTime + iv.maxTime) / 2) = none →
      interval_emission pe "sentence" et iv = .error attributeErrorMsg ∧
      ∀ rest, extraction_loop pe "sentence" et (iv :: rest) =
        .error attributeErrorMsg) := by
  constructor
  · intro pe et iv hb hts hmiss
    have he : interval_emission pe "word" et iv = .error attributeErrorMsg := by
      rw [word_emission_shape pe et iv hb hts, hmiss]
    exact ⟨he, fun rest => by rw [extraction_loop, he]⟩
  · intro pe et iv hb hmiss
    have he : interval_emission pe "sentence" et iv = .error attributeErrorMsg := by
      rw [sentence_emission_shape pe et iv hb, hmiss]
    exact ⟨he, fun rest => by rw [extraction_loop, he]⟩

/-- Witness for the amended C2 at the concrete c2pe input. -/
theorem c2_witness :
    interval_emission c2pe "word" ⟨"English (word)", []⟩ ⟨0, 1, "nipiy"⟩ =
      .error attributeErrorMsg ∧
    extraction_loop c2pe "word" ⟨"English (word)", []⟩ [⟨0, 1, "nipiy"⟩] =
      .error attributeErrorMsg := by
  have h := (c2_theorem.1 c2pe ⟨"English (word)", []⟩ ⟨0, 1, "nipiy"⟩
    rfl rfl rfl)
  exact ⟨h.1, h.2 []⟩

/-! ## Claim C3 -/

/-- Claim C3: on a successful run, a Cree word-tier interval whose rational
midpoint lies inside a member of the (non-overlapping) Cree sentence tier
whose label is not whitespace-only is suppressed from word output (its
emission is ok none, and the word output equals that of the interval list
with it spliced out), and sentence output contains a candidate carrying
that sentence interval's millisecond time bounds. -/
theorem c3_theorem (pe : PhraseExtractor) (ct et st : IntervalTier)
    (w S : Interval) (ws ss : List PhraseCandidate)
    (hok : extract_all pe = .ok (ws, ss))
    (hct : pe.text_grid.get? WORD_TIER_CREE = some ct)
    (het : pe.text_grid.get? WORD_TIER_ENGLISH = some et)
    (hst : pe.text_grid.get? SENTENCE_TIER_CREE = some st)
    (hd : disjointIntervals st.intervals)
    (hS : S ∈ st.intervals)
    (hc1 : S.minTime ≤ (w.minTime + w.maxTime) / 2)
    (hc2 : (w.minTime + w.maxTime) / 2 < S.maxTime)
    (hmark : pyStrip S.mark ≠ "") :
    interval_emission pe "word" et w = .ok none ∧
    (∀ l1 l2, ct.intervals = l1 ++ w :: l2 →
      extraction_loop pe "word" et (l1 ++ l2) = .ok ws) ∧
    ∃ c, c ∈ ss ∧ c._type = "sentence" ∧
      c.transcription = normalize S.mark ∧
      c.start = to_milliseconds S.minTime ∧
      c.end' = to_milliseconds S.maxTime := by
  obtain ⟨hlen, ct', et', st', hct', het', hst', hcw, hew, hcs, hwloop, hsloop⟩ :=
    extract_all_ok_inv hok
  rw [hct] at hct'
  rw [het] at het'
  rw [hst] at hst'
  cases hct'
  cases het'
  cases hst'
  have hne : S.mark ≠ "" := by
    intro h0
    apply hmark
    rw [h0]
    rfl
  have hwithin : timestamp_within_sentence pe ((w.minTime + w.maxTime) / 2) =
      .ok true := by
    unfold timestamp_within_sentence
    rw [getTier_of_get? hst]
    dsimp only
    rw [intervalContaining_of_mem hd hS hc1 hc2]
    simp [hne]
  have hgem : interval_emission pe "word" et w = .ok none :=
    word_emission_suppressed pe et w hwithin
  have hbS : isBlankMark S.mark = false := by
    simp [isBlankMark, hne, hmark]
  refine ⟨hgem, ?_, ?_⟩
  · intro l1 l2 hsplit
    rw [hsplit] at hwloop
    rw [← extraction_loop_skip hgem l1 l2]
    exact hwloop
  · obtain ⟨r, hr, hin⟩ := extraction_loop_ok_mem hsloop hS
    rw [sentence_emission_shape pe et S hbS] at hr
    cases hiv : intervalContaining et ((S.minTime + S.maxTime) / 2) with
    | none => rw [hiv] at hr; cases hr
    | some eiv =>
      rw [hiv] at hr
      cases hr
      exact ⟨_, hin _ rfl, rfl, rfl, rfl, rfl⟩

def c3engTier : IntervalTier := ⟨"English (word)", [⟨0, 6, "he sleeps"⟩]⟩

def c3pe : PhraseExtractor :=
  { session := "sess",
    text_grid := [c3engTier,
                  ⟨"Cree (word)", [⟨0, 1, "êkwa"⟩, ⟨4, 5, "nipiy"⟩]⟩,
                  ⟨"English (sentence)", []⟩,
                  ⟨"Cree (sentence)", [⟨0, 1, "full sentence"⟩]⟩],
    speaker := "SPK" }

/-- Witness for C3 at the concrete c3pe input: the word interval (0,1)
sits inside the non-blank sentence interval (0,1) and is suppressed (word
output holds only the other word), while sentence output carries the
sentence bounds 0..1000. -/
theorem c3_witness :
    interval_emission c3pe "word" c3engTier ⟨0, 1, "êkwa"⟩ = .ok none ∧
    extraction_loop c3pe "word" c3engTier [⟨4, 5, "nipiy"⟩] =
      .ok [⟨"word", "nipiy", "he sleeps", 4000, 5000⟩] ∧
    ∃ c, c ∈ [(⟨"sentence", "full sentence", "he sleeps", 0, 1000⟩ :
        PhraseCandidate)] ∧ c._type = "sentence" ∧
      c.start = to_milliseconds 0 ∧ c.end' = to_milliseconds 1 := by
  have hok : extract_all c3pe =
      .ok ([⟨"word", "nipiy", "he sleeps", 4000, 5000⟩],
           [⟨"sentence", "full sentence", "he sleeps", 0, 1000⟩]) := by
    with_unfolding_all rfl
  have h := c3_theorem c3pe ⟨"Cree (word)", [⟨0, 1, "êkwa"⟩, ⟨4, 5, "nipiy"⟩]⟩
    c3engTier ⟨"Cree (sentence)", [⟨0, 1, "full sentence"⟩]⟩
    ⟨0, 1, "êkwa"⟩ ⟨0, 1, "full sentence"⟩ _ _ hok rfl rfl rfl
    (by simp [disjointIntervals]) (by simp) (by norm_num) (by norm_num)
    (by decide)
  obtain ⟨h1, h2, c, hc, hty, _, hs, he⟩ := h
  exact ⟨h1, h2 [] [⟨4, 5, "nipiy"⟩] rfl, c, hc, hty, hs, he⟩

/-! ## Claim C8 -/

/-- Claim C8: on a successful run, every non-blank Cree sentence-tier
interval yields a sentence candidate whose translation was looked up in
the tier at index WORD_TIER_ENGLISH (the English WORD tier, not the
English sentence tier at index 2), at the sentence's own midpoint computed
in exact fractional seconds; only the emitted bounds are converted to
milliseconds. -/
theorem c8_theorem (pe : PhraseExtractor) (et st : IntervalTier)
    (S : Interval) (ws ss : List PhraseCandidate)
    (hok : extract_all pe = .ok (ws, ss))
    (het : pe.text_grid.get? WORD_TIER_ENGLISH = some et)
    (hst : pe.text_grid.get? SENTENCE_TIER_CREE = some st)
    (hS : S ∈ st.intervals)
    (hb : isBlankMark S.mark = false) :
    ∃ eiv, intervalContaining et ((S.minTime + S.maxTime) / 2) = some eiv ∧
      ∃ c, c ∈ ss ∧ c._type = "sentence" ∧
        c.translation = normalize eiv.mark ∧
        c.transcription = normalize S.mark ∧
        c.start = to_milliseconds S.minTime ∧
        c.end' = to_milliseconds S.maxTime := by
  obtain ⟨hlen, ct', et', st', hct', het', hst', hcw, hew, hcs, hwloop, hsloop⟩ :=
    extract_all_ok_inv hok
  rw [het] at het'
  rw [hst] at hst'
  cases het'
  cases hst'
  obtain ⟨r, hr, hin⟩ := extraction_loop_ok_mem hsloop hS
  rw [sentence_emission_shape pe et S hb] at hr
  cases hiv : intervalContaining et ((S.minTime + S.maxTime) / 2) with
  | none => rw [hiv] at hr; cases hr
  | some eiv =>
    rw [hiv] at hr
    cases hr
    exact ⟨eiv, rfl, _, hin _ rfl, rfl, rfl, rfl, rfl, rfl⟩

def c8engWordTier : IntervalTier :=
  ⟨"English (word)", [⟨0, 6, "word tier gloss"⟩]⟩

/-- A grid whose English word tier and English sentence tier disagree at
the midpoint, to exhibit which tier the sentence translation comes from. -/
def c8pe : PhraseExtractor :=
  { session := "sess",
    text_grid := [c8engWordTier,
                  ⟨"Cree (word)", []⟩,
                  ⟨"English (sentence)", [⟨0, 6, "SENTENCE TIER GLOSS"⟩]⟩,
                  ⟨"Cree (sentence)", [⟨1, 2, "kiya"⟩]⟩],
    speaker := "SPK" }

/-- Witness for C8 at c8pe: the emitted sentence translation is the
English WORD tier label at the midpoint, not the English sentence tier
label that also contains it. -/
theorem c8_witness :
    ∃ eiv, intervalContaining c8engWordTier (((1 : Rat) + 2) / 2) = some eiv ∧
      ∃ c, c ∈ [(⟨"sentence", "kiya", "word tier gloss", 1000, 2000⟩ :
          PhraseCandidate)] ∧
        c.translation = normalize eiv.mark ∧
        c.translation ≠ "SENTENCE TIER GLOSS" := by
  have hok : extract_all c8pe =
      .ok ([], [⟨"sentence", "kiya", "word tier gloss", 1000, 2000⟩]) := by
    with_unfolding_all rfl
  have h := c8_theorem c8pe c8engWordTier ⟨"Cree (sentence)", [⟨1, 2, "kiya"⟩]⟩
    ⟨1, 2, "kiya"⟩ _ _ hok rfl rfl (by simp) rfl
  obtain ⟨eiv, hiv, c, hc, hty, htr, _⟩ := h
  exact ⟨eiv, hiv, c, hc, htr, by
    rcases List.mem_singleton.mp hc with rfl
    decide⟩

/-! ## Claim C9 -/

/-- Claim C9: a TextGrid with exactly two or three tiers (with the word
tiers named so that the name asserts pass) gets past the explicit
tier-count assertion (at least 2 tiers), yet extract_all fails with
IndexError from the fixed tiers[3] access to the Cree sentence tier; and
in general a run of extract_all can only succeed when the grid has at
least four tiers. -/
theorem c9_theorem :
    (∀ (pe : PhraseExtractor) (ct et : IntervalTier),
      (pe.text_grid.length = 2 ∨ pe.text_grid.length = 3) →
      pe.text_grid.get? WORD_TIER_CREE = some ct →
      is_cree_tier ct = true →
      pe.text_grid.get? WORD_TIER_ENGLISH = some et →
      is_english_tier et = true →
      extract_all pe = .error indexErrorMsg) ∧
    indexErrorMsg ≠ tooFewTiersMsg ∧
    (∀ (pe : PhraseExtractor) (out : List PhraseCandidate × List PhraseCandidate),
      extract_all pe = .ok out → 4 ≤ pe.text_grid.length) := by
  refine ⟨?_, by decide, ?_⟩
  · intro pe ct et hlen hct hcree het heng
    have hlt : ¬ pe.text_grid.length < 2 := by
      rcases hlen with h | h <;> omega
    have h3 : pe.text_grid.get? SENTENCE_TIER_CREE = none := by
      rw [List.get?_eq_none]
      rcases hlen with h | h <;> simp [h, SENTENCE_TIER_CREE]
    unfold extract_all
    rw [if_neg hlt, getTier_of_get? hct]
    dsimp only
    rw [getTier_of_get? het]
    dsimp only
    have hph : extract_phrases pe "word" ct et =
        extraction_loop pe "word" et ct.intervals := by
      unfold extract_phrases
      rw [if_neg (by simp [hcree]), if_neg (by simp [heng])]
    rw [hph]
    rcases word_loop_no_tier3 h3 ct.intervals with hl | hl
    · rw [hl]
      dsimp only
      rw [if_neg (by simp [heng]), getTier_none h3]
    · rw [hl]
  · intro pe out h
    cases out with
    | mk ws ss =>
      obtain ⟨-, ct, et, st, -, -, hst, -⟩ := extract_all_ok_inv h
      have := List.get?_eq_some.mp hst
      obtain ⟨hlt, -⟩ := this
      have hlt3 : 3 < pe.text_grid.length := hlt
      omega

def c9pe : PhraseExtractor :=
  { session := "s",
    text_grid := [⟨"English (word)", []⟩, ⟨"Cree (word)", [⟨0, 1, "x"⟩]⟩],
    speaker := "S" }

/-- A four-tier grid with empty tiers: the smallest grid extract_all
completes on. -/
def c9okpe : PhraseExtractor :=
  { session := "s",
    text_grid := [⟨"English (word)", []⟩, ⟨"Cree (word)", []⟩,
                  ⟨"English (sentence)", []⟩, ⟨"Cree (sentence)", []⟩],
    speaker := "S" }

/-- Witness for C9: a two-tier grid fails with IndexError (not the
tier-count assertion), and a completing run has at least four tiers. -/
theorem c9_witness :
    extract_all c9pe = .error indexErrorMsg ∧
    4 ≤ c9okpe.text_grid.length := by
  constructor
  · exact c9_theorem.1 c9pe ⟨"Cree (word)", [⟨0, 1, "x"⟩]⟩
      ⟨"English (word)", []⟩ (Or.inl rfl) rfl rfl rfl rfl
  · exact c9_theorem.2.2 c9okpe ([], []) rfl

/-! ## Claim C4 -/

/-- Claim C4 (code bug), evaluated at a failing input: derive sets
previous_id on a node, yet the serialization that is hashed still contains
no previous and no provenance line, because show() tests the SQLAlchemy
relationship attributes (self.previous, self.provenance), which are never
populated on the transient instances new and derive build.  The id of the
derived node is the digest of the author/date/value-only serialization, and
coincides with the id of a fresh ROOT node holding the same value, author
and timestamp, contradicting the recompute comment in derive. -/
theorem c4_code_bug_eval :
    ∃ r d,
      VersionedString.new "hello" "alice" "2018-01-01T00:00:00" = .ok r ∧
      r.derive "world" "bob" "2018-01-02T00:00:00" = .ok d ∧
      d.previous_id = some r.id ∧
      d.previous = none ∧ d.provenance = none ∧
      d.show_ = "author bob" ++ "\n" ++ "date 2018-01-02T00:00:00" ++
        "\n" ++ "\n" ++ "world" ∧
      d.id = sha256hexOfString ("author bob" ++ "\n" ++
        "date 2018-01-02T00:00:00" ++ "\n" ++ "\n" ++ "world") ∧
      (∃ r2, VersionedString.new "world" "bob" "2018-01-02T00:00:00" = .ok r2 ∧
        d.id = r2.id) := by
  refine ⟨_, _, rfl, rfl, rfl, rfl, rfl, ?_, ?_, _, rfl, ?_⟩
  · rfl
  · rfl
  · rfl

/-! ## Claim C5 -/

/-- Claim C5: a root and two successive derivations form a well-linked
chain: previous_id points at the predecessor id, all three nodes share the
root provenance_id, the root has no previous_id and provenance_id equal to
its own id, and filtering the table (in insertion order) by the root
provenance returns the three nodes oldest first.  derive builds a fresh
instance and the receiver fields are untouched (the embedding is pure, as
the source derive constructs a new object via type(self).new). -/
theorem c5_theorem (v1 a1 t1 v2 a2 t2 v3 a3 t3 : String)
    (r n2 n3 : VersionedString)
    (h1 : VersionedString.new v1 a1 t1 = .ok r)
    (h2 : r.derive v2 a2 t2 = .ok n2)
    (h3 : n2.derive v3 a3 t3 = .ok n3) :
    n2.previous_id = some r.id ∧
    n3.previous_id = some n2.id ∧
    r.provenance_id = r.id ∧
    n2.provenance_id = r.id ∧
    n3.provenance_id = r.id ∧
    r.previous_id = none ∧
    history [r, n2, n3] r.provenance_id = [r, n2, n3] := by
  have hr := new_ok_inv h1
  have hn2 := derive_ok_inv h2
  have hn3 := derive_ok_inv h3
  have k2 : n2.provenance_id = r.id := hn2.2.1.trans hr.1
  have k3 : n3.provenance_id = r.id := hn3.2.1.trans k2
  refine ⟨hn2.1, hn3.1, hr.1, k2, k3, hr.2.1, ?_⟩
  simp [history, hr.1, k2, k3]

/-- Witness for C5: the chain v1, v2, v3 at concrete values. -/
theorem c5_witness :
    ∃ r n2 n3,
      VersionedString.new "v1" "alice" "2018-01-01T00:00:00" = .ok r ∧
      r.derive "v2" "alice" "2018-01-02T00:00:00" = .ok n2 ∧
      n2.derive "v3" "bob" "2018-01-03T00:00:00" = .ok n3 ∧
      n2.previous_id = some r.id ∧
      n3.previous_id = some n2.id ∧
      n2.provenance_id = r.id ∧ n3.provenance_id = r.id ∧
      r.previous_id = none ∧
      history [r, n2, n3] r.provenance_id = [r, n2, n3] := by
  refine ⟨_, _, _, rfl, rfl, rfl, ?_⟩
  have h := c5_theorem "v1" "alice" "2018-01-01T00:00:00"
    "v2" "alice" "2018-01-02T00:00:00" "v3" "bob" "2018-01-03T00:00:00"
    _ _ _ rfl rfl rfl
  exact ⟨h.1, h.2.1, h.2.2.2.1, h.2.2.2.2.1, h.2.2.2.2.2⟩

/-! ## Claim C6 -/

/-- Claim C6: compute_fingerprint returns the 64 lowercase-hex-character
SHA-256 digest of the raw bytes of the file; it is deterministic and, for
any two paths accepted by the .wav suffix assertion, depends only on the
bytes, not the path. -/
theorem c6_theorem (p1 p2 : String) (b1 b2 : List Nat)
    (h1 : pathSuffix p1 = ".wav") (h2 : pathSuffix p2 = ".wav") :
    compute_fingerprint p1 b1 = .ok (sha256hex b1) ∧
    (sha256hex b1).length = 64 ∧
    (∀ c ∈ (sha256hex b1).data, c ∈ hexChars) ∧
    compute_fingerprint p1 b1 = compute_fingerprint p1 b1 ∧
    (b1 = b2 → compute_fingerprint p1 b1 = compute_fingerprint p2 b2) := by
  have e1 : compute_fingerprint p1 b1 = .ok (sha256hex b1) := by
    simp [compute_fingerprint, h1]
  refine ⟨e1, sha256hex_length b1, sha256hex_hex b1, rfl, ?_⟩
  rintro rfl
  rw [e1]
  simp [compute_fingerprint, h2]

/-- Witness for C6 at concrete inputs: the same three bytes under two
different .wav paths. -/
theorem c6_witness :
    compute_fingerprint "a.wav" [0, 1, 2] = .ok (sha256hex [0, 1, 2]) ∧
    (sha256hex [0, 1, 2]).length = 64 ∧
    compute_fingerprint "a.wav" [0, 1, 2] =
      compute_fingerprint "dir/b.wav" [0, 1, 2] := by
  have h := c6_theorem "a.wav" "dir/b.wav" [0, 1, 2] [0, 1, 2] rfl rfl
  exact ⟨h.1, h.2.1, h.2.2.2.2 rfl⟩

/-! ## Claim C7 -/

/-- Claim C7: to_milliseconds equals the floor of seconds * 1000 on every
nonnegative input, is monotone, and truncates rather than rounds:
1.0009 seconds gives 1000 and 0.0005 seconds gives 0. -/
theorem c7_theorem :
    (∀ s : Rat, 0 ≤ s → to_milliseconds s = ⌊s * 1000⌋) ∧
    (∀ s1 s2 : Rat, s1 ≤ s2 → to_milliseconds s1 ≤ to_milliseconds s2) ∧
    to_milliseconds (10009 / 10000) = 1000 ∧
    to_milliseconds (5 / 10000) = 0 := by
  refine ⟨?_, ?_, ?_, ?_⟩
  · intro s hs
    rw [to_milliseconds, if_pos (mul_nonneg hs (by norm_num))]
  · intro s1 s2 h
    have hxy : s1 * 1000 ≤ s2 * 1000 :=
      mul_le_mul_of_nonneg_right h (by norm_num)
    unfold to_milliseconds
    by_cases hx : 0 ≤ s1 * 1000
    · rw [if_pos hx, if_pos (le_trans hx hxy)]
      exact Int.floor_le_floor hxy
    · rw [if_neg hx]
      by_cases hy : 0 ≤ s2 * 1000
      · rw [if_pos hy]
        have hc : ⌈s1 * 1000⌉ ≤ 0 :=
          Int.ceil_le.mpr (by simpa using le_of_not_le hx)
        exact le_trans hc (Int.floor_nonneg.mpr hy)
      · rw [if_neg hy]
        exact Int.ceil_le_ceil hxy
  · norm_num [to_milliseconds]
  · norm_num [to_milliseconds]

/-- Witness for C7 at concrete inputs. -/
theorem c7_witness :
    to_milliseconds 2 = ⌊(2 : Rat) * 1000⌋ ∧
    to_milliseconds 1 ≤ to_milliseconds 2 ∧
    to_milliseconds (10009 / 10000) = 1000 :=
  ⟨c7_theorem.1 2 (by norm_num), c7_theorem.2.1 1 2 (by norm_num),
   c7_theorem.2.2.1⟩

/-! ## Claim C10 -/

/-- Claim C10: when a fingerprint argument is supplied, Recording.new
checks only that the input file exists; it computes no fingerprint,
transcodes nothing, and carries the supplied fingerprint verbatim, whatever
string it is. -/
theorem c10_theorem (fs : List (String × List Nat)) (phrase_id : Nat)
    (input_file : String) (speaker : Option String) (fp : String)
    (b : List Nat) (hex : readFile fs input_file = some b) :
    Recording.new fs phrase_id input_file speaker (some fp) =
      .ok { recording := { fingerprint := fp, phrase_id := phrase_id,
                           speaker := speaker },
            computed_fingerprint := false, transcoded := false } ∧
    (∀ f2, readFile fs f2 = none →
      Recording.new fs phrase_id f2 speaker (some fp) =
        .error "AssertionError: input_file.exists()") := by
  constructor
  · rw [Recording.new, hex]
  · intro f2 h2
    rw [Recording.new, h2]

/-- Witness for C10: a non-wav file and a fingerprint that is not any
SHA-256 digest are both accepted verbatim. -/
theorem c10_witness :
    Recording.new [("song.mp3", [9, 9, 9])] 7 "song.mp3" (some "SPK")
        (some "not-a-sha256-digest") =
      .ok { recording := { fingerprint := "not-a-sha256-digest",
                           phrase_id := 7, speaker := some "SPK" },
            computed_fingerprint := false, transcoded := false } :=
  (c10_theorem [("song.mp3", [9, 9, 9])] 7 "song.mp3" (some "SPK")
    "not-a-sha256-digest" [9, 9, 9] rfl).1

end Recval
